import Mathlib

/-!
Verification development for the BTP Safe Route Detection system.

The system has three parts:
- a Flask route engine exposing `POST /getSafeRoute` (graph store, crime
  exposure model, multi-objective router, artifact cache); its Python source
  is not in the repository snapshot, only its README and its client, so the
  engine components below are modelled from the specification and are marked
  as such in their doc comments;
- a Node/Express auth and contacts backend (`backend/app.js`,
  `backend/routes/authRoutes.js`), embedded from the source;
- a React Native client (`SafeRouteScreen.handleFindRoute`), embedded from
  the source.

All numeric quantities (coordinates, metres, risk scores) are modelled as
rationals.
-/

namespace BTP

/-- Coordinate pair, as produced by geocoding. -/
structure Coord where
  latitude : ℚ
  longitude : ℚ
deriving DecidableEq

/-- Road-network node: `{id, latitude, longitude}` (spec data model). -/
structure Node where
  id : Nat
  latitude : ℚ
  longitude : ℚ
deriving DecidableEq

/-- Road-network directed edge: `{fromNode, toNode, lengthMeters, riskScore}`
(spec data model; undirected travel is two directed edges). -/
structure Edge where
  fromNode : Nat
  toNode : Nat
  lengthMeters : ℚ
  riskScore : ℚ
deriving DecidableEq

/-- Road-network graph owned by the Road Network Store. -/
structure Graph where
  nodes : List Node
  edges : List Edge
deriving DecidableEq

def nodeCoord (n : Node) : Coord :=
  ⟨n.latitude, n.longitude⟩

/-- Squared straight-line distance between two coordinates. -/
def distSq (a b : Coord) : ℚ :=
  (a.latitude - b.latitude) ^ 2 + (a.longitude - b.longitude) ^ 2

/-- Crime incident record: `{latitude, longitude, severity}` (spec data model). -/
structure CrimeIncident where
  latitude : ℚ
  longitude : ℚ
  severity : ℚ
deriving DecidableEq

/-- Geometric data of an edge: endpoints and length.  The crime exposure
computation reads only this part of an edge, never its current risk score. -/
abbrev EdgeGeom := Nat × Nat × ℚ

def edgeGeom (e : Edge) : EdgeGeom :=
  (e.fromNode, e.toNode, e.lengthMeters)

/-- Coordinate of the node with a given id (origin when the id is absent). -/
def nodeCoordIn (nodes : List Node) (i : Nat) : Coord :=
  match nodes.find? (fun n => n.id == i) with
  | some n => nodeCoord n
  | none => ⟨0, 0⟩

/-- Squared perpendicular/geometric distance from a point to the line segment
`[a, b]`, via the clamped projection parameter. -/
def segDistSq (a b p : Coord) : ℚ :=
  let dx := b.latitude - a.latitude
  let dy := b.longitude - a.longitude
  let len2 := dx * dx + dy * dy
  if len2 = 0 then distSq a p
  else
    let t := ((p.latitude - a.latitude) * dx + (p.longitude - a.longitude) * dy) / len2
    let tc := max 0 (min 1 t)
    distSq ⟨a.latitude + tc * dx, a.longitude + tc * dy⟩ p

def geomDistSq (nodes : List Node) (ge : EdgeGeom) (p : Coord) : ℚ :=
  segDistSq (nodeCoordIn nodes ge.1) (nodeCoordIn nodes ge.2.1) p

/-- Index of the first minimum of a list of rationals. -/
def argminIdx (l : List ℚ) : Option Nat :=
  (l.foldl
    (fun (acc : Option (Nat × ℚ) × Nat) (x : ℚ) =>
      match acc with
      | (none, j) => (some (j, x), j + 1)
      | (some (bi, bv), j) =>
        ((if x < bv then some (j, x) else some (bi, bv)), j + 1))
    (none, 0)).1.map Prod.fst

/-- Modelled from the spec: the Crime Exposure Model's nearest-edge lookup
("for each crime incident, find the nearest edge by perpendicular/geometric
distance to the edge's line segment").  The Python implementation is not in
the repository snapshot. -/
def nearestEdgeIdx (nodes : List Node) (ges : List EdgeGeom) (p : Coord) : Option Nat :=
  argminIdx (ges.map (fun ge => geomDistSq nodes ge p))

def geomLengthAt (ges : List EdgeGeom) (i : Nat) : ℚ :=
  match ges.get? i with
  | some ge => ge.2.2
  | none => 1

/-- Modelled from the spec: each incident's severity is accumulated onto its
nearest edge's raw risk sum. -/
def rawRiskAt (nodes : List Node) (ges : List EdgeGeom)
    (incidents : List CrimeIncident) (i : Nat) : ℚ :=
  ((incidents.filter
      (fun c => nearestEdgeIdx nodes ges ⟨c.latitude, c.longitude⟩ == some i)).map
    CrimeIncident.severity).sum

/-- Modelled from the spec: per-edge risk value, the severity sum normalized by
edge length (risk density) and rescaled to a bounded range by a fixed cap.
The spec leaves the exact rescaling open ("min-max or a fixed cap"); a fixed
cap is used.  Edges with zero mapped incidents get raw sum 0, hence risk 0. -/
def riskValues (cap : ℚ) (nodes : List Node) (ges : List EdgeGeom)
    (incidents : List CrimeIncident) : List ℚ :=
  (List.range ges.length).map
    (fun i => min (rawRiskAt nodes ges incidents i / geomLengthAt ges i) cap)

/-- Overwrite the risk scores of a list of edges with the given values. -/
def setRiskScores (edges : List Edge) (vals : List ℚ) : List Edge :=
  List.zipWith (fun e v => { e with riskScore := v }) edges vals

/-- Modelled from the spec: `computeEdgeRisk(graph, incidents)` of the Crime
Exposure Model (spec section 4.2) — joins crime incidents to nearest edges and
writes the per-edge risk score; the Python implementation is not in the
repository snapshot. -/
def computeEdgeRisk (cap : ℚ) (g : Graph) (incidents : List CrimeIncident) : Graph :=
  { g with edges := setRiskScores g.edges (riskValues cap g.nodes (g.edges.map edgeGeom) incidents) }

/-- Error taxonomy of the route engine (spec section 7). -/
inductive ReqError
  | locationOutsideNetwork
  | noRouteFound
  | geocodeFailure
  | renderFailure
deriving DecidableEq

/-- Startup-time router configuration: the risk weighting constant alpha, the
risk cap, and the maximum squared snap distance. -/
structure RouterParams where
  alpha : ℚ
  riskCap : ℚ
  maxSnapDistSq : ℚ
deriving DecidableEq

/-- First node of the graph at minimal straight-line distance from `c`. -/
def nearestNode (g : Graph) (c : Coord) : Option Node :=
  match g.nodes with
  | [] => none
  | n :: ns =>
    some (ns.foldl
      (fun best m => if distSq (nodeCoord m) c < distSq (nodeCoord best) c then m else best) n)

/-- Modelled from the spec: snap a coordinate to its nearest graph node,
reporting failure when the nearest node is beyond the configured maximum snap
distance (spec section 4.3 step 1). -/
def snapToNearest (maxSq : ℚ) (g : Graph) (c : Coord) : Option Node :=
  match nearestNode g c with
  | some n => if distSq (nodeCoord n) c ≤ maxSq then some n else none
  | none => none

/-- Simple walks in `g` from `cur` to `t` that avoid the visited set, bounded
by fuel; each walk is the list of traversed edges. -/
def walksFrom (g : Graph) (t : Nat) : Nat → List Nat → Nat → List (List Edge)
  | fuel, visited, cur =>
    if cur = t then [[]]
    else
      match fuel with
      | 0 => []
      | f + 1 =>
        (g.edges.filter
            (fun e => e.fromNode == cur && !(visited.contains e.toNode) && !(e.toNode == cur))).flatMap
          (fun e => (walksFrom g t f (cur :: visited) e.toNode).map (fun p => e :: p))

/-- All simple paths of `g` from node `s` to node `t`. -/
def simplePaths (g : Graph) (s t : Nat) : List (List Edge) :=
  walksFrom g t g.nodes.length [] s

/-- True physical length of a path: the sum of `lengthMeters` over its edges. -/
def pathLength (p : List Edge) : ℚ :=
  (p.map Edge.lengthMeters).sum

/-- Aggregate risk of a path: the sum of `riskScore` over traversed edges
(spec section 4.3, "sum (or mean, consistently chosen)"; the sum is used). -/
def pathRisk (p : List Edge) : ℚ :=
  (p.map Edge.riskScore).sum

/-- Length-weighted aggregate risk of a path: the sum of
`lengthMeters * riskScore` over traversed edges. -/
def pathWeightedRisk (p : List Edge) : ℚ :=
  (p.map (fun e => e.lengthMeters * e.riskScore)).sum

/-- Modelled from the spec: composite safest cost
`lengthMeters * (1 + alpha * riskScore)` summed over a path (spec 4.3 step 3). -/
def costSafe (alpha : ℚ) (p : List Edge) : ℚ :=
  (p.map (fun e => e.lengthMeters * (1 + alpha * e.riskScore))).sum

/-- Modelled from the spec: risk-rewarding cost
`lengthMeters * (1 + alpha * (riskCap - riskScore))` summed over a path
(spec 4.3 step 4). -/
def costRisky (alpha cap : ℚ) (p : List Edge) : ℚ :=
  (p.map (fun e => e.lengthMeters * (1 + alpha * (cap - e.riskScore)))).sum

/-- Path `q` is strictly preferred over `p`: lower cost, or equal cost and
fewer edges (spec 4.3 step 5 tie-breaking). -/
def betterPath (cost : List Edge → ℚ) (p q : List Edge) : Bool :=
  if cost q < cost p then true
  else if cost q = cost p ∧ q.length < p.length then true
  else false

/-- Keep the current best candidate unless `q` is strictly preferred. -/
def pickBetter (cost : List Edge → ℚ) (best q : List Edge) : List Edge :=
  if betterPath cost best q then q else best

/-- Deterministic minimum-cost path of a candidate list, ties broken first by
fewer edges, then by candidate order. -/
def selectMin (cost : List Edge → ℚ) : List (List Edge) → Option (List Edge)
  | [] => none
  | p :: ps => some (ps.foldl (pickBetter cost) p)

inductive RouteKind
  | safest
  | fastest
  | riskiest
deriving DecidableEq

/-- Route result: `{kind, nodeSequence, distanceKm, aggregateRiskScore}`
(spec data model).  `distanceKm` is the true metre length of the returned
path divided by 1000, never the composite cost. -/
structure RouteResult where
  kind : RouteKind
  nodeSequence : List Nat
  distanceKm : ℚ
  aggregateRiskScore : ℚ
deriving DecidableEq

structure Routes where
  safest : RouteResult
  fastest : RouteResult
  riskiest : RouteResult
deriving DecidableEq

def mkResult (k : RouteKind) (s : Nat) (p : List Edge) : RouteResult :=
  ⟨k, s :: p.map Edge.toNode, pathLength p / 1000, pathRisk p⟩

/-- Modelled from the spec: `findRoutes(graph, source, destination)` of the
Multi-Objective Router (spec section 4.3) — snap both coordinates, then pick
the fastest (pure length), safest (composite cost), and riskiest
(risk-rewarding cost) simple paths; the Python implementation is not in the
repository snapshot. -/
def findRoutes (prm : RouterParams) (g : Graph) (src dst : Coord) : Except ReqError Routes :=
  match snapToNearest prm.maxSnapDistSq g src, snapToNearest prm.maxSnapDistSq g dst with
  | some ns, some nt =>
    match selectMin pathLength (simplePaths g ns.id nt.id),
          selectMin (costSafe prm.alpha) (simplePaths g ns.id nt.id),
          selectMin (costRisky prm.alpha prm.riskCap) (simplePaths g ns.id nt.id) with
    | some pf, some ps, some pk =>
      Except.ok
        ⟨mkResult RouteKind.safest ns.id ps,
         mkResult RouteKind.fastest ns.id pf,
         mkResult RouteKind.riskiest ns.id pk⟩
    | _, _, _ => Except.error ReqError.noRouteFound
  | _, _ => Except.error ReqError.locationOutsideNetwork

/-- Request body of `POST /getSafeRoute`: `{source, destination}` strings. -/
structure ApiRequest where
  source : String
  destination : String
deriving DecidableEq

/-- Success payload of `POST /getSafeRoute` (spec section 6). -/
structure SuccessBody where
  safe_path_distance_km : ℚ
  crime_score : ℚ
  map_url : String
deriving DecidableEq

/-- Response body of `POST /getSafeRoute`: either the success shape or the
`{status:"error", message}` shape. -/
inductive ResponseBody
  | success : SuccessBody → ResponseBody
  | error : String → ResponseBody
deriving DecidableEq

structure HttpResponse where
  statusCode : Nat
  body : ResponseBody
deriving DecidableEq

/-- Human-readable message for each per-request error, distinguishing the
corrective actions (spec section 7). -/
def errorMessage : ReqError → String
  | ReqError.locationOutsideNetwork => "Location is outside the supported road network"
  | ReqError.noRouteFound => "No route found between locations"
  | ReqError.geocodeFailure => "Could not geocode location"
  | ReqError.renderFailure => "Map could not be generated"

/-- Modelled from the spec: the Route Service API boundary for
`POST /getSafeRoute` (spec sections 6 and 7) — the per-request pipeline
(geocode, route, render) either yields a success body or fails with a
`ReqError`; every error is converted into an HTTP 200 response whose body is
`{status:"error", message}`.  The Flask implementation is not in the
repository snapshot. -/
def handleGetSafeRoute (pipeline : ApiRequest → Except ReqError SuccessBody)
    (req : ApiRequest) : HttpResponse :=
  match pipeline req with
  | Except.ok b => ⟨200, ResponseBody.success b⟩
  | Except.error e => ⟨200, ResponseBody.error (errorMessage e)⟩

/-- Round a rational to a fixed number of decimal digits. -/
def roundQ (prec : Nat) (x : ℚ) : ℚ :=
  (⌊x * 10 ^ prec⌋ : ℚ) / 10 ^ prec

def roundCoord (prec : Nat) (c : Coord) : Coord :=
  ⟨roundQ prec c.latitude, roundQ prec c.longitude⟩

/-- Artifact cache key, a deterministic function of the rounded source
coordinate, rounded destination coordinate, and graph version (spec data
model, `RouteArtifact`). -/
abbrev CacheKey := Coord × Coord × Nat

def cacheKey (prec graphVersion : Nat) (src dst : Coord) : CacheKey :=
  (roundCoord prec src, roundCoord prec dst, graphVersion)

/-- Artifact cache: an append-only key-to-file mapping plus a render counter
(the counter observes how many artifacts were actually rendered). -/
structure ArtifactStore where
  entries : List (CacheKey × String)
  renders : Nat
deriving DecidableEq

/-- Modelled from the spec: `buildOrGetArtifact` of the Route Artifact Builder
(spec section 4.4) — compute the cache key from the request coordinates and
the graph version; on a hit return the cached reference without recomputation,
otherwise render, count the render, and register the artifact under the key.
The Python implementation is not in the repository snapshot. -/
def buildOrGetArtifact (prec graphVersion : Nat) (render : CacheKey → String)
    (st : ArtifactStore) (src dst : Coord) : ArtifactStore × String :=
  let k := cacheKey prec graphVersion src dst
  match st.entries.find? (fun kv => decide (kv.1 = k)) with
  | some kv => (st, kv.2)
  | none => (⟨(k, render k) :: st.entries, st.renders + 1⟩, render k)

/-- Emergency contact entry (`backend/models/contact`, used by
`backend/app.js`). -/
structure Contact where
  name : String
  phone : String
  relation : String
deriving DecidableEq

/-- Per-user contacts document as stored in MongoDB. -/
structure ContactsDoc where
  userId : String
  contacts : List Contact
deriving DecidableEq

/-- Handler of `GET /api/contacts/:userId` (`backend/app.js` lines 57-65):
`Contact.findOne({userId})` then `res.json(userContacts?.contacts || [])` —
a missing document yields status 200 with `[]`, an existing one yields
status 200 with its contacts array. -/
def getContactsHandler (db : String → Option ContactsDoc) (userId : String) :
    Nat × List Contact :=
  match db userId with
  | some doc => (200, doc.contacts)
  | none => (200, [])

/-- JavaScript truthiness of an optional string field: `undefined` and the
empty string are falsy. -/
def truthy : Option String → Bool
  | none => false
  | some s => !(s == "")

/-- Body of `POST /api/auth/signup`; absent fields are `none`. -/
structure SignupRequest where
  fullName : Option String
  email : Option String
  password : Option String
deriving DecidableEq

/-- Stored user record (`backend/models/User`). -/
structure User where
  fullName : String
  email : String
  password : String
deriving DecidableEq

/-- Handler of `POST /api/auth/signup` (`backend/routes/authRoutes.js` lines
8-63): reject with 400 when `fullName`, `email` or `password` is falsy or an
existing user has the same email; otherwise store the user with
`bcrypt.hash(password)` in the password field and answer 201.  `hash` stands
for `bcrypt.hash` and `db` for the users collection; the returned list is the
collection after the request. -/
def signup (hash : String → String) (db : List User) (req : SignupRequest) :
    Nat × List User :=
  if truthy req.fullName && truthy req.email && truthy req.password then
    match db.find? (fun u => u.email == req.email.getD "") with
    | some _ => (400, db)
    | none =>
      (201, db ++ [⟨req.fullName.getD "", req.email.getD "", hash (req.password.getD "")⟩])
  else (400, db)

/-- Backend response shape as declared by the client
(`RouteResponse`, part_001 lines 23-29). -/
structure ClientRouteResponse where
  status : String
  safe_path_distance_km : Option ℚ
  crime_score : Option ℚ
  map_url : Option String
  message : Option String
deriving DecidableEq

/-- Outcome of the Safe Route screen after a backend response: either the map
is rendered from a URL, or an error message is displayed. -/
inductive ClientOutcome
  | showMap : String → ClientOutcome
  | showError : String → ClientOutcome
deriving DecidableEq

/-- Response branch of `handleFindRoute` (part_001 lines 62-71):
`if (data.status === 'success' && data.map_url)` render the map, else display
`data.message || 'Failed to find route'` as an error. -/
def handleFindRoute (data : ClientRouteResponse) : ClientOutcome :=
  if data.status == "success" && truthy data.map_url then
    ClientOutcome.showMap (data.map_url.getD "")
  else
    ClientOutcome.showError
      (if truthy data.message then data.message.getD "" else "Failed to find route")

/-- Concrete three-node graph used by the witnesses and the counterexample:
a direct edge node 0 to node 1 (200 m, risk 1) and a two-edge detour through
node 2 (100 m each, risk 9/10 each).  Lengths are scaled down so the numbers
stay small: edge lengths 2, 1, 1. -/
def g3 : Graph :=
  ⟨[⟨0, 0, 0⟩, ⟨1, 10, 0⟩, ⟨2, 5, 5⟩],
   [⟨0, 1, 2, 1⟩, ⟨0, 2, 1, 9/10⟩, ⟨2, 1, 1, 9/10⟩]⟩

def prm1 : RouterParams := ⟨1, 1, 1⟩

def c00 : Coord := ⟨0, 0⟩

def c100 : Coord := ⟨10, 0⟩

def n0 : Node := ⟨0, 0, 0⟩

/-- Routes computed by `findRoutes prm1 g3 c00 c100`: the safest route takes
the detour, the fastest and riskiest take the direct edge. -/
def exampleRoutes : Routes :=
  ⟨⟨RouteKind.safest, [0, 2, 1], 1/500, 9/5⟩,
   ⟨RouteKind.fastest, [0, 1], 1/500, 1⟩,
   ⟨RouteKind.riskiest, [0, 1], 1/500, 1⟩⟩

/-- Routes computed by `findRoutes prm1 g3 c00 c00` (source and destination
snapped to the same node). -/
def sameNodeRoutes : Routes :=
  ⟨⟨RouteKind.safest, [0], 0, 0⟩,
   ⟨RouteKind.fastest, [0], 0, 0⟩,
   ⟨RouteKind.riskiest, [0], 0, 0⟩⟩

/-- Pipeline that fails with `NoRouteFound`, for the API witness. -/
def pipeErr : ApiRequest → Except ReqError SuccessBody :=
  fun _ => Except.error ReqError.noRouteFound

def reqAB : ApiRequest := ⟨"Connaught Place, Delhi", "AIIMS, Delhi"⟩

/-! Helper lemmas about the path selection, the cost identities, and the
crime exposure computation. -/

lemma betterPath_le_of_true {cost : List Edge → ℚ} {p q : List Edge}
    (h : betterPath cost p q = true) : cost q ≤ cost p := by
  unfold betterPath at h
  split_ifs at h with h1 h2
  · exact h1.le
  · exact h2.1.le

lemma betterPath_ge_of_false {cost : List Edge → ℚ} {p q : List Edge}
    (h : betterPath cost p q = false) : cost p ≤ cost q := by
  unfold betterPath at h
  split_ifs at h with h1 h2
  · exact le_of_not_lt h1

lemma pickBetter_le_left (cost : List Edge → ℚ) (p q : List Edge) :
    cost (pickBetter cost p q) ≤ cost p := by
  unfold pickBetter
  cases h : betterPath cost p q with
  | true => simpa using betterPath_le_of_true h
  | false => simp

lemma pickBetter_le_right (cost : List Edge → ℚ) (p q : List Edge) :
    cost (pickBetter cost p q) ≤ cost q := by
  unfold pickBetter
  cases h : betterPath cost p q with
  | true => simp
  | false => simpa using betterPath_ge_of_false h

lemma foldl_pickBetter_le (cost : List Edge → ℚ) (ps : List (List Edge)) :
    ∀ p, cost (ps.foldl (pickBetter cost) p) ≤ cost p := by
  induction ps with
  | nil => intro p; simp
  | cons q ps ih =>
    intro p
    simp only [List.foldl_cons]
    exact le_trans (ih (pickBetter cost p q)) (pickBetter_le_left cost p q)

lemma foldl_pickBetter_le_mem (cost : List Edge → ℚ) (ps : List (List Edge)) :
    ∀ p q, q ∈ ps → cost (ps.foldl (pickBetter cost) p) ≤ cost q := by
  induction ps with
  | nil => intro p q hq; simp at hq
  | cons a ps ih =>
    intro p q hq
    simp only [List.foldl_cons]
    rcases List.mem_cons.1 hq with rfl | hq
    · exact le_trans (foldl_pickBetter_le cost ps (pickBetter cost p q))
        (pickBetter_le_right cost p q)
    · exact ih (pickBetter cost p a) q hq

lemma foldl_pickBetter_mem (cost : List Edge → ℚ) (ps : List (List Edge)) :
    ∀ p, ps.foldl (pickBetter cost) p ∈ p :: ps := by
  induction ps with
  | nil => intro p; simp
  | cons a ps ih =>
    intro p
    simp only [List.foldl_cons]
    have hstep : pickBetter cost p a = p ∨ pickBetter cost p a = a := by
      unfold pickBetter
      split_ifs
      · exact Or.inr rfl
      · exact Or.inl rfl
    rcases List.mem_cons.1 (ih (pickBetter cost p a)) with h | h
    · rw [h]
      rcases hstep with hs | hs <;> rw [hs] <;> simp
    · simp [List.mem_cons, h]

lemma selectMin_mem {cost : List Edge → ℚ} {l : List (List Edge)} {m : List Edge}
    (h : selectMin cost l = some m) : m ∈ l := by
  cases l with
  | nil => simp [selectMin] at h
  | cons p ps =>
    simp only [selectMin, Option.some.injEq] at h
    rw [← h]
    exact foldl_pickBetter_mem cost ps p

lemma selectMin_le {cost : List Edge → ℚ} {l : List (List Edge)} {m : List Edge}
    (h : selectMin cost l = some m) : ∀ q ∈ l, cost m ≤ cost q := by
  cases l with
  | nil => simp [selectMin] at h
  | cons p ps =>
    simp only [selectMin, Option.some.injEq] at h
    intro q hq
    rw [← h]
    rcases List.mem_cons.1 hq with rfl | hq
    · exact foldl_pickBetter_le cost ps q
    · exact foldl_pickBetter_le_mem cost ps p q hq

lemma costSafe_eq (a : ℚ) (p : List Edge) :
    costSafe a p = pathLength p + a * pathWeightedRisk p := by
  induction p with
  | nil => simp [costSafe, pathLength, pathWeightedRisk]
  | cons e p ih =>
    simp only [costSafe, pathLength, pathWeightedRisk, List.map_cons, List.sum_cons] at ih ⊢
    rw [ih]
    ring

lemma costRisky_eq (a c : ℚ) (p : List Edge) :
    costRisky a c p = (1 + a * c) * pathLength p - a * pathWeightedRisk p := by
  induction p with
  | nil => simp [costRisky, pathLength, pathWeightedRisk]
  | cons e p ih =>
    simp only [costRisky, pathLength, pathWeightedRisk, List.map_cons, List.sum_cons] at ih ⊢
    rw [ih]
    ring

lemma setRiskScores_map_edgeGeom : ∀ (edges : List Edge) (vals : List ℚ),
    vals.length = edges.length →
    (setRiskScores edges vals).map edgeGeom = edges.map edgeGeom := by
  intro edges
  induction edges with
  | nil => intro vals _; simp [setRiskScores]
  | cons e es ih =>
    intro vals h
    cases vals with
    | nil => simp at h
    | cons v vs =>
      simp only [setRiskScores, List.zipWith_cons_cons, List.map_cons] at ih ⊢
      exact congrArg₂ List.cons rfl (ih vs (by simpa using h))

lemma setRiskScores_twice : ∀ (edges : List Edge) (vals : List ℚ),
    setRiskScores (setRiskScores edges vals) vals = setRiskScores edges vals := by
  intro edges
  induction edges with
  | nil => intro vals; simp [setRiskScores]
  | cons e es ih =>
    intro vals
    cases vals with
    | nil => simp [setRiskScores]
    | cons v vs =>
      simp only [setRiskScores, List.zipWith_cons_cons] at ih ⊢
      exact congrArg₂ List.cons rfl (ih vs)

lemma mem_setRiskScores : ∀ (edges : List Edge) (vals : List ℚ) (e : Edge),
    e ∈ setRiskScores edges vals → ∃ v ∈ vals, e.riskScore = v := by
  intro edges
  induction edges with
  | nil => intro vals e h; simp [setRiskScores] at h
  | cons e0 es ih =>
    intro vals e h
    cases vals with
    | nil => simp [setRiskScores] at h
    | cons v vs =>
      simp only [setRiskScores, List.zipWith_cons_cons, List.mem_cons] at h
      rcases h with rfl | h
      · exact ⟨v, List.mem_cons_self v vs, rfl⟩
      · obtain ⟨w, hw, he⟩ := ih vs e h
        exact ⟨w, List.mem_cons_of_mem v hw, he⟩

lemma riskValues_length (cap : ℚ) (nodes : List Node) (ges : List EdgeGeom)
    (incidents : List CrimeIncident) :
    (riskValues cap nodes ges incidents).length = ges.length := by
  simp [riskValues]

lemma riskValues_nonneg (cap : ℚ) (nodes : List Node) (ges : List EdgeGeom)
    (incidents : List CrimeIncident) (hcap : 0 ≤ cap)
    (hsev : ∀ c ∈ incidents, 0 ≤ c.severity) (hlen : ∀ ge ∈ ges, 0 ≤ ge.2.2) :
    ∀ v ∈ riskValues cap nodes ges incidents, 0 ≤ v := by
  intro v hv
  simp only [riskValues, List.mem_map, List.mem_range] at hv
  obtain ⟨i, _, rfl⟩ := hv
  refine le_min ?_ hcap
  refine div_nonneg ?_ ?_
  · refine List.sum_nonneg ?_
    intro x hx
    simp only [rawRiskAt, List.mem_map] at hx
    obtain ⟨c, hc, rfl⟩ := hx
    exact hsev c (List.mem_filter.1 hc).1
  · unfold geomLengthAt
    cases hge : ges.get? i with
    | none => norm_num
    | some ge => exact hlen ge (List.get?_mem hge)

lemma simplePaths_self (g : Graph) (s : Nat) : simplePaths g s s = [[]] := by
  unfold simplePaths
  rw [walksFrom.eq_def]
  simp

/-! Claim theorems and witnesses. -/

/-- Claim C1: every request to `POST /getSafeRoute` gets a 200 response whose
body is either the success shape or the `{status:"error", message}` shape, and
every per-request error is converted into the error body. -/
theorem getSafeRoute_always_ok (pipeline : ApiRequest → Except ReqError SuccessBody)
    (req : ApiRequest) :
    (handleGetSafeRoute pipeline req).statusCode = 200 ∧
    ((∃ b, (handleGetSafeRoute pipeline req).body = ResponseBody.success b) ∨
      (∃ m, (handleGetSafeRoute pipeline req).body = ResponseBody.error m)) ∧
    (∀ e, pipeline req = Except.error e →
      (handleGetSafeRoute pipeline req).body = ResponseBody.error (errorMessage e)) := by
  cases h : pipeline req with
  | ok b =>
    refine ⟨by simp [handleGetSafeRoute, h], Or.inl ⟨b, by simp [handleGetSafeRoute, h]⟩, ?_⟩
    intro e he
    cases he
  | error e0 =>
    refine ⟨by simp [handleGetSafeRoute, h],
      Or.inr ⟨errorMessage e0, by simp [handleGetSafeRoute, h]⟩, ?_⟩
    intro e he
    injection he with he2
    subst he2
    simp [handleGetSafeRoute, h]

/-- Witness for C1 at a concrete failing pipeline and request. -/
theorem getSafeRoute_always_ok_witness :
    (handleGetSafeRoute pipeErr reqAB).statusCode = 200 ∧
    (handleGetSafeRoute pipeErr reqAB).body =
      ResponseBody.error (errorMessage ReqError.noRouteFound) :=
  ⟨(getSafeRoute_always_ok pipeErr reqAB).1,
   (getSafeRoute_always_ok pipeErr reqAB).2.2 ReqError.noRouteFound rfl⟩

/-- Claim C2: whenever the router returns routes, the fastest route is no
longer than the safest route, because the fastest minimizes the true length
over the same candidate paths. -/
theorem fastest_le_safest_distance (prm : RouterParams) (g : Graph) (src dst : Coord)
    (r : Routes) (h : findRoutes prm g src dst = Except.ok r) :
    r.fastest.distanceKm ≤ r.safest.distanceKm := by
  unfold findRoutes at h
  split at h
  · split at h
    · rename_i pf ps pk hf hs hk
      injection h with h
      subst h
      simp only [mkResult]
      exact (div_le_div_iff_of_pos_right (by norm_num)).mpr
        (selectMin_le hf ps (selectMin_mem hs))
    · cases h
  · cases h

/-- Evaluation of the router on the concrete graph `g3`, shared by the C2
witness and the C3 counterexample. -/
lemma findRoutes_g3_eval : findRoutes prm1 g3 c00 c100 = Except.ok exampleRoutes := by
  have h1 : snapToNearest (1 : ℚ) g3 c00 = some n0 := by
    norm_num [snapToNearest, nearestNode, distSq, nodeCoord, g3, c00, n0]
  have h2 : snapToNearest (1 : ℚ) g3 c100 = some (⟨1, 10, 0⟩ : Node) := by
    norm_num [snapToNearest, nearestNode, distSq, nodeCoord, g3, c100]
  have hp : simplePaths g3 0 1 = [[⟨0, 1, 2, 1⟩], [⟨0, 2, 1, 9/10⟩, ⟨2, 1, 1, 9/10⟩]] := by
    simp only [simplePaths, g3]
    norm_num [walksFrom, List.filter_cons, List.filter_nil, List.flatMap_cons,
      List.flatMap_nil, List.contains_cons, List.map_cons, List.map_nil]
  rw [findRoutes]
  rw [show prm1.maxSnapDistSq = (1 : ℚ) from rfl, h1, h2]
  simp only [n0]
  rw [hp]
  have hf : selectMin pathLength [[⟨0, 1, 2, 1⟩], [⟨0, 2, 1, 9/10⟩, ⟨2, 1, 1, 9/10⟩]] =
      some [⟨0, 1, 2, 1⟩] := by
    norm_num [selectMin, pickBetter, betterPath, pathLength]
  have hs : selectMin (costSafe prm1.alpha)
      [[⟨0, 1, 2, 1⟩], [⟨0, 2, 1, 9/10⟩, ⟨2, 1, 1, 9/10⟩]] =
      some [⟨0, 2, 1, 9/10⟩, ⟨2, 1, 1, 9/10⟩] := by
    norm_num [selectMin, pickBetter, betterPath, costSafe, prm1]
  have hk : selectMin (costRisky prm1.alpha prm1.riskCap)
      [[⟨0, 1, 2, 1⟩], [⟨0, 2, 1, 9/10⟩, ⟨2, 1, 1, 9/10⟩]] =
      some [⟨0, 1, 2, 1⟩] := by
    norm_num [selectMin, pickBetter, betterPath, costRisky, prm1]
  rw [hf, hs, hk]
  norm_num [mkResult, pathLength, pathRisk, exampleRoutes]

/-- Witness for C2: on the concrete graph `g3` both routes exist and the
fastest is no longer than the safest. -/
theorem fastest_le_safest_distance_witness :
    findRoutes prm1 g3 c00 c100 = Except.ok exampleRoutes ∧
    exampleRoutes.fastest.distanceKm ≤ exampleRoutes.safest.distanceKm :=
  ⟨findRoutes_g3_eval,
   fastest_le_safest_distance prm1 g3 c00 c100 exampleRoutes findRoutes_g3_eval⟩

/-- Counterexample for C3 as stated: on `g3` the safest route (the detour,
aggregate risk 9/5) has a strictly larger unweighted aggregate risk score than
the riskiest route (the direct edge, aggregate risk 1), because the aggregate
is a plain sum of per-edge risk scores while the costs weight risk by edge
length. -/
theorem safest_agg_risk_exceeds_riskiest_cex :
    findRoutes prm1 g3 c00 c100 = Except.ok exampleRoutes ∧
    ¬ (exampleRoutes.safest.aggregateRiskScore ≤ exampleRoutes.riskiest.aggregateRiskScore) := by
  constructor
  · exact findRoutes_g3_eval
  · norm_num [exampleRoutes]

/-- Claim C3 amended: the safest route's length-weighted aggregate risk (the
sum of `lengthMeters * riskScore` over traversed edges) never exceeds the
riskiest route's, for the routes selected from any common candidate set. -/
theorem safest_weighted_risk_le_riskiest (alpha cap : ℚ) (cands : List (List Edge))
    (ps pk : List Edge) (ha : 0 < alpha) (hc : 0 ≤ cap)
    (hs : selectMin (costSafe alpha) cands = some ps)
    (hk : selectMin (costRisky alpha cap) cands = some pk) :
    pathWeightedRisk ps ≤ pathWeightedRisk pk := by
  have h1 : costSafe alpha ps ≤ costSafe alpha pk := selectMin_le hs pk (selectMin_mem hk)
  have h2 : costRisky alpha cap pk ≤ costRisky alpha cap ps := selectMin_le hk ps (selectMin_mem hs)
  rw [costSafe_eq, costSafe_eq] at h1
  rw [costRisky_eq, costRisky_eq] at h2
  by_contra hcon
  push_neg at hcon
  have hprod : 0 < alpha * (pathWeightedRisk ps - pathWeightedRisk pk) :=
    mul_pos ha (sub_pos.2 hcon)
  have hE : pathLength ps < pathLength pk := by nlinarith [hprod]
  have h3 : 0 ≤ alpha * cap * (pathLength pk - pathLength ps) :=
    mul_nonneg (mul_nonneg ha.le hc) (by linarith)
  nlinarith [hprod, h3]

/-- Witness for the amended C3 on the concrete candidate set of `g3`. -/
theorem safest_weighted_risk_le_riskiest_witness :
    pathWeightedRisk [(⟨0, 2, 1, 9/10⟩ : Edge), ⟨2, 1, 1, 9/10⟩] ≤
      pathWeightedRisk [(⟨0, 1, 2, 1⟩ : Edge)] :=
  safest_weighted_risk_le_riskiest 1 1
    [[⟨0, 1, 2, 1⟩], [⟨0, 2, 1, 9/10⟩, ⟨2, 1, 1, 9/10⟩]]
    [⟨0, 2, 1, 9/10⟩, ⟨2, 1, 1, 9/10⟩] [⟨0, 1, 2, 1⟩]
    (by norm_num) (by norm_num)
    (by norm_num [selectMin, pickBetter, betterPath, costSafe])
    (by norm_num [selectMin, pickBetter, betterPath, costRisky])

/-- Claim C4: after the Crime Exposure Model runs, every edge's risk score is
nonnegative, and re-running it on the same graph and incident set leaves every
edge's risk score unchanged (idempotence). -/
theorem computeEdgeRisk_nonneg_idem (cap : ℚ) (g : Graph) (incidents : List CrimeIncident)
    (hcap : 0 ≤ cap) (hsev : ∀ c ∈ incidents, 0 ≤ c.severity)
    (hlen : ∀ e ∈ g.edges, 0 ≤ e.lengthMeters) :
    (∀ e ∈ (computeEdgeRisk cap g incidents).edges, 0 ≤ e.riskScore) ∧
    computeEdgeRisk cap (computeEdgeRisk cap g incidents) incidents =
      computeEdgeRisk cap g incidents := by
  have hgeomlen : ∀ ge ∈ g.edges.map edgeGeom, 0 ≤ ge.2.2 := by
    intro ge hge
    obtain ⟨e0, he0, rfl⟩ := List.mem_map.1 hge
    exact hlen e0 he0
  constructor
  · intro e he
    simp only [computeEdgeRisk] at he
    obtain ⟨v, hv, hev⟩ := mem_setRiskScores _ _ _ he
    rw [hev]
    exact riskValues_nonneg cap g.nodes (g.edges.map edgeGeom) incidents
      hcap hsev hgeomlen v hv
  · have hvlen : (riskValues cap g.nodes (g.edges.map edgeGeom) incidents).length =
        g.edges.length := by
      rw [riskValues_length, List.length_map]
    have hgeom : (setRiskScores g.edges
          (riskValues cap g.nodes (g.edges.map edgeGeom) incidents)).map edgeGeom =
        g.edges.map edgeGeom :=
      setRiskScores_map_edgeGeom g.edges _ hvlen
    simp only [computeEdgeRisk]
    rw [hgeom]
    rw [setRiskScores_twice]

/-- Concrete graph and incident list for the C4 witness: one 100 m edge
between two nodes and a single incident of severity 1/2 next to it. -/
def g1 : Graph := ⟨[⟨0, 0, 0⟩, ⟨1, 1, 0⟩], [⟨0, 1, 100, 0⟩]⟩

def inc1 : List CrimeIncident := [⟨1/2, 1/100, 1⟩]

/-- Witness for C4 at the concrete graph `g1` and incident list `inc1`. -/
theorem computeEdgeRisk_nonneg_idem_witness :
    (∀ e ∈ (computeEdgeRisk 1 g1 inc1).edges, 0 ≤ e.riskScore) ∧
    computeEdgeRisk 1 (computeEdgeRisk 1 g1 inc1) inc1 = computeEdgeRisk 1 g1 inc1 :=
  computeEdgeRisk_nonneg_idem 1 g1 inc1 (by norm_num)
    (by intro c hc; simp only [inc1, List.mem_singleton] at hc; rw [hc]; norm_num)
    (by intro e he; simp only [g1, List.mem_singleton] at he; rw [he]; norm_num)

/-- Claim C5: when the source and the destination snap to the same graph node,
every returned route kind has distance 0. -/
theorem same_snap_zero_distance (prm : RouterParams) (g : Graph) (src dst : Coord)
    (n : Node) (r : Routes)
    (hsrc : snapToNearest prm.maxSnapDistSq g src = some n)
    (hdst : snapToNearest prm.maxSnapDistSq g dst = some n)
    (hr : findRoutes prm g src dst = Except.ok r) :
    r.safest.distanceKm = 0 ∧ r.fastest.distanceKm = 0 ∧ r.riskiest.distanceKm = 0 := by
  unfold findRoutes at hr
  rw [hsrc, hdst] at hr
  dsimp only at hr
  rw [simplePaths_self] at hr
  simp only [selectMin, List.foldl_nil] at hr
  rw [Except.ok.injEq] at hr
  subst hr
  simp [mkResult, pathLength]

/-- Witness for C5: both coordinates of the request snap to node 0 of `g3`. -/
theorem same_snap_zero_distance_witness :
    findRoutes prm1 g3 c00 c00 = Except.ok sameNodeRoutes ∧
    sameNodeRoutes.safest.distanceKm = 0 ∧ sameNodeRoutes.fastest.distanceKm = 0 ∧
    sameNodeRoutes.riskiest.distanceKm = 0 := by
  have hsnap : snapToNearest prm1.maxSnapDistSq g3 c00 = some n0 := by
    norm_num [snapToNearest, nearestNode, distSq, nodeCoord, g3, c00, n0, prm1]
  have heval : findRoutes prm1 g3 c00 c00 = Except.ok sameNodeRoutes := by
    rw [findRoutes, hsnap]
    dsimp only
    rw [simplePaths_self]
    simp only [selectMin, List.foldl_nil]
    norm_num [mkResult, pathLength, pathRisk, sameNodeRoutes, n0]
  exact ⟨heval, same_snap_zero_distance prm1 g3 c00 c00 n0 sameNodeRoutes hsnap hsnap heval⟩

/-- Claim C6: two requests whose coordinates round to the same values (same
graph version) produce the same artifact reference, the artifact is not
rendered a second time, and the cache key is a deterministic function of the
rounded coordinates and the graph version. -/
theorem artifact_cache_hit (prec ver : Nat) (render : CacheKey → String)
    (st : ArtifactStore) (s1 d1 s2 d2 : Coord)
    (hs : roundCoord prec s1 = roundCoord prec s2)
    (hd : roundCoord prec d1 = roundCoord prec d2) :
    cacheKey prec ver s2 d2 = cacheKey prec ver s1 d1 ∧
    (buildOrGetArtifact prec ver render
        (buildOrGetArtifact prec ver render st s1 d1).1 s2 d2).2 =
      (buildOrGetArtifact prec ver render st s1 d1).2 ∧
    (buildOrGetArtifact prec ver render
        (buildOrGetArtifact prec ver render st s1 d1).1 s2 d2).1.renders =
      (buildOrGetArtifact prec ver render st s1 d1).1.renders ∧
    (buildOrGetArtifact prec ver render st s1 d1).1.renders ≤ st.renders + 1 := by
  have hkey : cacheKey prec ver s2 d2 = cacheKey prec ver s1 d1 := by
    unfold cacheKey
    rw [hs, hd]
  refine ⟨hkey, ?_⟩
  unfold buildOrGetArtifact
  rw [hkey]
  cases hfind : st.entries.find? (fun kv => decide (kv.1 = cacheKey prec ver s1 d1)) with
  | some kv => simp [hfind]
  | none =>
    simp only [hfind]
    have hhead : List.find?
        (fun kv => decide (kv.1 = cacheKey prec ver s1 d1))
        ((cacheKey prec ver s1 d1,
          render (cacheKey prec ver s1 d1)) :: st.entries) =
        some (cacheKey prec ver s1 d1, render (cacheKey prec ver s1 d1)) :=
      List.find?_cons_of_pos _ (by simp)
    simp [hhead]

/-- Concrete coordinates for the C6 witness: latitudes 0.123 and 0.124 agree
after rounding to 2 decimal digits. -/
def cA : Coord := ⟨123/1000, 1⟩

def cB : Coord := ⟨124/1000, 1⟩

def cD : Coord := ⟨1, 1⟩

def render0 : CacheKey → String := fun _ => "safe_route_abc123.html"

def st0 : ArtifactStore := ⟨[], 0⟩

/-- Witness for C6 at concrete coordinates that differ but round alike. -/
theorem artifact_cache_hit_witness :
    cacheKey 2 7 cB cD = cacheKey 2 7 cA cD ∧
    (buildOrGetArtifact 2 7 render0 (buildOrGetArtifact 2 7 render0 st0 cA cD).1 cB cD).2 =
      (buildOrGetArtifact 2 7 render0 st0 cA cD).2 ∧
    (buildOrGetArtifact 2 7 render0 (buildOrGetArtifact 2 7 render0 st0 cA cD).1 cB cD).1.renders =
      (buildOrGetArtifact 2 7 render0 st0 cA cD).1.renders ∧
    (buildOrGetArtifact 2 7 render0 st0 cA cD).1.renders ≤ st0.renders + 1 :=
  artifact_cache_hit 2 7 render0 st0 cA cD cB cD
    (by norm_num [roundCoord, roundQ, cA, cB])
    rfl

/-- Claim C8: `GET /api/contacts/:userId` answers 200 for every user id; a
missing contacts document yields the empty array, an existing one yields its
contacts array. -/
theorem getContacts_missing_doc_empty (db : String → Option ContactsDoc) (uid : String) :
    (getContactsHandler db uid).1 = 200 ∧
    (db uid = none → (getContactsHandler db uid).2 = []) ∧
    (∀ d, db uid = some d → (getContactsHandler db uid).2 = d.contacts) := by
  cases h : db uid with
  | none =>
    refine ⟨by simp [getContactsHandler, h], fun _ => by simp [getContactsHandler, h], ?_⟩
    intro d hd
    cases hd
  | some doc =>
    refine ⟨by simp [getContactsHandler, h], fun hnone => ?_, ?_⟩
    · cases hnone
    · intro d hd
      injection hd with hd2
      subst hd2
      simp [getContactsHandler, h]

/-- Database with no contacts documents, for the C8 witness. -/
def dbNone : String → Option ContactsDoc := fun _ => none

/-- Witness for C8 at a concrete user id with no stored document. -/
theorem getContacts_missing_doc_empty_witness :
    (getContactsHandler dbNone "user42").1 = 200 ∧ (getContactsHandler dbNone "user42").2 = [] :=
  ⟨(getContacts_missing_doc_empty dbNone "user42").1,
   (getContacts_missing_doc_empty dbNone "user42").2.1 rfl⟩

/-- Claim C9: `POST /api/auth/signup` creates a user exactly when `fullName`,
`email` and `password` are all truthy and no stored user has that email; the
created record stores the bcrypt hash of the password, and every other case
answers 400 and leaves the collection unchanged. -/
theorem signup_spec (hash : String → String) (db : List User) (req : SignupRequest) :
    ((truthy req.fullName && truthy req.email && truthy req.password) = true →
      db.find? (fun u => u.email == req.email.getD "") = none →
      signup hash db req =
        (201, db ++ [⟨req.fullName.getD "", req.email.getD "", hash (req.password.getD "")⟩])) ∧
    ((truthy req.fullName && truthy req.email && truthy req.password) = true →
      ∀ u0, db.find? (fun u => u.email == req.email.getD "") = some u0 →
        signup hash db req = (400, db)) ∧
    ((truthy req.fullName && truthy req.email && truthy req.password) = false →
      signup hash db req = (400, db)) := by
  refine ⟨?_, ?_, ?_⟩
  · intro hfields hfind
    simp [signup, hfields, hfind]
  · intro hfields u0 hfind
    simp [signup, hfields, hfind]
  · intro hfields
    simp [signup, hfields]

def hash0 : String → String := fun s => s ++ "#bcrypt"

def reqSignup : SignupRequest := ⟨some "Asha", some "asha@example.com", some "pw123"⟩

/-- Witness for C9: a fresh signup against an empty collection stores the
hashed password and answers 201. -/
theorem signup_spec_witness :
    signup hash0 [] reqSignup =
      (201, [⟨reqSignup.fullName.getD "", reqSignup.email.getD "",
        hash0 (reqSignup.password.getD "")⟩]) :=
  (signup_spec hash0 [] reqSignup).1 (by decide) rfl

/-- Claim C10: the Safe Route screen treats a backend response as a successful
route exactly when its status is "success" and `map_url` is present and
non-empty; a response with status "success" but no usable `map_url` is shown
as an error. -/
theorem handleFindRoute_success_iff (data : ClientRouteResponse) :
    ((∃ u, handleFindRoute data = ClientOutcome.showMap u) ↔
      data.status = "success" ∧ ∃ s, data.map_url = some s ∧ s ≠ "") ∧
    (data.status = "success" → data.map_url = none →
      ∃ m, handleFindRoute data = ClientOutcome.showError m) := by
  constructor
  · constructor
    · rintro ⟨u, hu⟩
      unfold handleFindRoute at hu
      split_ifs at hu with hcond
      · rw [Bool.and_eq_true, beq_iff_eq] at hcond
        obtain ⟨h1, h2⟩ := hcond
        refine ⟨h1, ?_⟩
        cases hm : data.map_url with
        | none => rw [hm] at h2; simp [truthy] at h2
        | some s =>
          rw [hm] at h2
          simp only [truthy, Bool.not_eq_true'] at h2
          exact ⟨s, rfl, by simpa using h2⟩
    · rintro ⟨h1, s, hm, hs⟩
      refine ⟨s, ?_⟩
      unfold handleFindRoute
      rw [if_pos (by simp [h1, hm, truthy, hs])]
      simp [hm]
  · intro h1 hm
    refine ⟨if truthy data.message then data.message.getD "" else "Failed to find route", ?_⟩
    unfold handleFindRoute
    rw [if_neg (by simp [hm, truthy])]

/-- Response with status "success" but no map URL, for the C10 witness. -/
def respNoUrl : ClientRouteResponse := ⟨"success", none, none, none, none⟩

/-- Witness for C10: a "success" response without `map_url` is shown as an
error. -/
theorem handleFindRoute_success_iff_witness :
    ∃ m, handleFindRoute respNoUrl = ClientOutcome.showError m :=
  (handleFindRoute_success_iff respNoUrl).2 rfl rfl

end BTP
